import Mathlib

/-!
# Request-gateway pipeline of the hospital-management backend (`src/app.js`)

A shallow embedding of the two hand-written middlewares of `app.js`:

* the CORS middleware (lines 14-49), which computes the origin allow-list from
  `FRONTEND_URL` / `DASHBOARD_URL`, decides the `Access-Control-Allow-Origin`
  header, sets three fixed headers and short-circuits `OPTIONS` requests;
* the error handler (lines 81-87), which turns a failure object into a JSON
  envelope.

JavaScript strings are embedded as Lean `String`s (sequences of Unicode scalar
values; lone surrogates are not represented).  JavaScript values that can sit in
`err.status` / `err.message` are embedded by `JSValue`; numbers are restricted
to the integers plus `NaN`, which covers every HTTP status code.

The calls into Express 4 and Node (`res.header`, `res.status`, `res.json`,
`res.end`) are embedded with the behaviour that decides the response: the
check of header values by `res.header`, and in `res.json` the content headers,
the freshness test, the stripping for 204/304/205 and the status check made
when the head is written.  What these calls compute outside `app.js` (number
coercion of strings and objects, media-type rewriting, body length, entity
tag, cache validation) is a parameter, `Runtime`.  Header names are compared as
written.  The `body` of a response is the payload computed for it; whether it
is transmitted (it is not for `HEAD`) is not embedded, and the responses handed
to the two middlewares are taken not to have had their head sent yet.
-/

set_option autoImplicit false

namespace HospitalBackend

/-! ## JavaScript strings -/

/-- The code points removed by `String.prototype.trim`: ECMAScript `WhiteSpace`
and `LineTerminator`. -/
def isWhiteSpace (c : Char) : Bool :=
  let n := c.toNat
  n == 0x09 || n == 0x0A || n == 0x0B || n == 0x0C || n == 0x0D || n == 0x20 ||
  n == 0xA0 || n == 0x1680 || (0x2000 ≤ n && n ≤ 0x200A) || n == 0x2028 ||
  n == 0x2029 || n == 0x202F || n == 0x205F || n == 0x3000 || n == 0xFEFF

/-- The method `s.trim()`: white space removed at both ends. -/
def trim (s : String) : String :=
  ⟨(s.data.dropWhile isWhiteSpace).rdropWhile isWhiteSpace⟩

/-- The call `s.replace(/\/+$/, "")`: the maximal run of slashes at the end of the
string is removed (the pattern is anchored at the end of input and has no flags). -/
def stripTrailingSlashes (s : String) : String :=
  ⟨s.data.rdropWhile (fun c => c == '/')⟩

/-- Pieces of a character sequence between occurrences of the separator `sep`;
there is always at least one piece. -/
def splitChars (sep : Char) : List Char → List (List Char)
  | [] => [[]]
  | c :: cs =>
    if c = sep then [] :: splitChars sep cs
    else
      match splitChars sep cs with
      | [] => [[c]]
      | p :: ps => (c :: p) :: ps

/-- The call `raw.split(",")`. -/
def split (raw : String) : List String :=
  (splitChars ',' raw.data).map String.mk

/-- The call `parts.join(",")`. -/
def join (parts : List String) : String :=
  ⟨List.intercalate [','] (parts.map String.data)⟩

/-- Truthiness of a JavaScript string: every string but the empty one. -/
def strTruthy (s : String) : Bool := s != ""

/-- Truthiness of a possibly `undefined` string (an environment variable, a
request header). -/
def optTruthy : Option String → Bool
  | none => false
  | some s => strTruthy s

/-! ## JavaScript values carried by a failure object -/

/-- The JavaScript values a failure's `status` or `message` property may hold.
`object` stands for any object or array (all truthy) that can be serialised and
coerced to a number without throwing. -/
inductive JSValue where
  | undefined
  | null
  | bool (b : Bool)
  | number (n : Int)
  | nan
  | string (s : String)
  | object
  deriving DecidableEq, Repr

/-- The abstract operation `ToBoolean`. -/
def JSValue.truthy : JSValue → Bool
  | .undefined => false
  | .null => false
  | .bool b => b
  | .number n => n != 0
  | .nan => false
  | .string s => strTruthy s
  | .object => true

/-- The operator `a || b`. -/
def JSValue.or (a b : JSValue) : JSValue :=
  if a.truthy then a else b

/-! ## Configuration, request, response -/

/-- The two entries of `process.env` read by the CORS middleware; `none` is
`undefined`. -/
structure Env where
  FRONTEND_URL : Option String
  DASHBOARD_URL : Option String
  deriving DecidableEq, Repr

/-- The characters Node accepts in a header value: tab, 0x20-0x7E and
0x80-0xFF (the complement of `/[^\t\x20-\x7e\x80-\xff]/`). -/
def isHeaderChar (c : Char) : Bool :=
  let n := c.toNat
  n == 0x09 || (0x20 ≤ n && n ≤ 0x7E) || (0x80 ≤ n && n ≤ 0xFF)

/-- A string that passes Node's check of header values. -/
def isHeaderValue (s : String) : Bool := s.data.all isHeaderChar

/-- An optional header as Node's parser delivers it: absent, or a string of
accepted characters. -/
def isParsedHeader : Option String → Bool
  | none => true
  | some s => isHeaderValue s

/-- The parts of the request read by the pipeline: `req.method`, the path and
`req.headers.origin` (`none` when the header is absent).  Node's HTTP parser
only delivers header values made of accepted characters. -/
structure Request where
  method : String
  path : String
  origin : Option String
  originParsed : isParsedHeader origin = true := by decide

/-- The object passed to `res.json` by the error handler. -/
structure ErrorEnvelope where
  success : Bool
  message : JSValue
  deriving DecidableEq, Repr

/-- A response body: nothing written, or a JSON-serialised envelope. -/
inductive Body where
  | empty
  | json (envelope : ErrorEnvelope)
  deriving DecidableEq, Repr

/-- The response under construction: header map (at most one value per name),
the `statusCode` property, the body, and whether the response has been
ended. -/
structure Response where
  headers : List (String × String)
  statusCode : JSValue
  body : Body
  ended : Bool
  deriving DecidableEq, Repr

/-- A response on which nothing has been set yet (Node's default status 200). -/
def Response.fresh : Response :=
  { headers := [], statusCode := .number 200, body := .empty, ended := false }

/-- Errors thrown by the Express and Node calls of `app.js`:
`ERR_INVALID_CHAR` from `res.header` and `ERR_HTTP_INVALID_STATUS_CODE` from
writing the response head. -/
inductive Thrown where
  | invalidChar (field : String)
  | invalidStatusCode (code : JSValue)
  deriving DecidableEq, Repr

/-- How a middleware left the request: it called `next()`, it ended the
response, or it threw. -/
inductive Outcome where
  | next
  | ended
  | threw (e : Thrown)
  deriving DecidableEq, Repr

/-- What a middleware did: the response as it left it, and the outcome. -/
structure StageResult where
  res : Response
  outcome : Outcome
  deriving DecidableEq, Repr

/-- The parts of Node and Express that `res.json` relies on and that are not
part of `app.js`, taken as parameters:
`stringToNumber` and `objectToNumber` are `ToNumber` on strings and on the
object a status may be (`none` is `NaN`; a coercion that throws is not
embedded); `setCharset` is the rewriting of an
existing `Content-Type` to carry `charset=utf-8`; `contentLength` and `etag`
are the values computed from the serialised body (`none`: no entity tag is
generated); `fresh` is the cache validation of the request's conditional
headers against the response's `ETag` and `Last-Modified`. -/
structure Runtime where
  stringToNumber : String → Option Int
  objectToNumber : Option Int
  setCharset : String → String
  contentLength : ErrorEnvelope → String
  etag : ErrorEnvelope → Option String
  fresh : Request → Option String → Option String → Bool

/-- One runtime, for evaluating examples: no string or object is a number, a
non-empty `Content-Type` without parameters gets `; charset=utf-8` appended, no
entity tag is generated and no request is fresh. -/
def Runtime.sample : Runtime :=
  { stringToNumber := fun _ => none
    objectToNumber := none
    setCharset := fun t => if t == "" || t.data.contains ';' then t else t ++ "; charset=utf-8"
    contentLength := fun _ => "0"
    etag := fun _ => none
    fresh := fun _ _ _ => false }

/-- Header map update: any previous value for `name` is dropped. -/
def setHeader (hs : List (String × String)) (name value : String) : List (String × String) :=
  hs.filter (fun p => p.1 != name) ++ [(name, value)]

/-- Header map removal. -/
def removeHeader (hs : List (String × String)) (name : String) : List (String × String) :=
  hs.filter (fun p => p.1 != name)

/-- Header map lookup. -/
def getHeader (hs : List (String × String)) (name : String) : Option String :=
  (hs.find? (fun p => p.1 == name)).map Prod.snd

/-- Number of values stored for a header name. -/
def countHeader (hs : List (String × String)) (name : String) : Nat :=
  (hs.filter (fun p => p.1 == name)).length

/-- The response with one header set. -/
def Response.put (res : Response) (name value : String) : Response :=
  { res with headers := setHeader res.headers name value }

/-- The call `res.header(name, value)`: the header is set, unless the value
holds a character Node rejects, in which case the call throws
`ERR_INVALID_CHAR` and the response is left as it was. -/
def Response.header (res : Response) (name value : String) : Except Thrown Response :=
  if isHeaderValue value then .ok (res.put name value) else .error (.invalidChar name)

/-- The call `res.status(code)`: Express 4 stores the value as it is. -/
def Response.status (res : Response) (code : JSValue) : Response :=
  { res with statusCode := code }

/-- The abstract operation `ToNumber` (`none` is `NaN`). -/
def toNumber (rt : Runtime) : JSValue → Option Int
  | .undefined => none
  | .null => some 0
  | .bool b => some (if b then 1 else 0)
  | .number n => some n
  | .nan => none
  | .string s => rt.stringToNumber s
  | .object => rt.objectToNumber

/-- The abstract operation `ToInt32` on an integer. -/
def wrapInt32 (n : Int) : Int :=
  (n + 2147483648) % 4294967296 - 2147483648

/-- The expression `statusCode | 0`. -/
def toInt32 (rt : Runtime) (v : JSValue) : Int :=
  match toNumber rt v with
  | some n => wrapInt32 n
  | none => 0

/-- The call `res.end(chunk)` on a response whose status coerces to `code` under
`| 0`: the head is written first; a status outside 100..999 makes the call throw
`ERR_HTTP_INVALID_STATUS_CODE` before anything is written, otherwise the coerced
status is stored, the chunk (if any) becomes the body and the response is
ended. -/
def Response.writeEnd (res : Response) (code : Int) (chunk : Option Body) : StageResult :=
  if code < 100 || code > 999 then
    { res := res, outcome := .threw (.invalidStatusCode res.statusCode) }
  else
    { res := { res with statusCode := .number code, body := chunk.getD res.body, ended := true }
      outcome := .ended }

/-- The call `res.end(chunk)`. -/
def Response.end (rt : Runtime) (res : Response) (chunk : Option Body) : StageResult :=
  res.writeEnd (toInt32 rt res.statusCode) chunk

/-- The getter `req.fresh` of Express: only for `GET` and `HEAD`, only when the
status is 2xx or 304, and then as the cache validation decides. -/
def Request.fresh (rt : Runtime) (req : Request) (res : Response) : Bool :=
  if req.method != "GET" && req.method != "HEAD" then false
  else
    let is2xx := match toNumber rt res.statusCode with
      | some n => decide (200 ≤ n) && decide (n < 300)
      | none => false
    if is2xx || res.statusCode == .number 304 then
      rt.fresh req (getHeader res.headers "ETag") (getHeader res.headers "Last-Modified")
    else false

/-- The content headers written by `res.json` and `res.send`: `Content-Type` is
set to JSON when it has no truthy value and rewritten to carry the charset,
`Content-Length` is written, and an `ETag` is generated when none is set. -/
def contentHeaders (rt : Runtime) (hs : List (String × String)) (envelope : ErrorEnvelope) :
    List (String × String) :=
  let hs := if optTruthy (getHeader hs "Content-Type") then hs
    else setHeader hs "Content-Type" "application/json; charset=utf-8"
  let hs := match getHeader hs "Content-Type" with
    | some t => setHeader hs "Content-Type" (rt.setCharset t)
    | none => hs
  let generateETag := !optTruthy (getHeader hs "ETag")
  let hs := setHeader hs "Content-Length" (rt.contentLength envelope)
  if generateETag then
    match rt.etag envelope with
    | some tag => setHeader hs "ETag" tag
    | none => hs
  else hs

/-- The end of `res.send`: the statuses 204 and 304 strip the content headers
and the body, 205 empties the body, and the response is ended with what is left
of the body. -/
def Response.stripAndEnd (rt : Runtime) (res : Response) (chunk : Body) : StageResult :=
  if res.statusCode == .number 204 || res.statusCode == .number 304 then
    Response.end rt
      { res with headers := removeHeader (removeHeader (removeHeader res.headers "Content-Type")
          "Content-Length") "Transfer-Encoding" }
      (some Body.empty)
  else if res.statusCode == .number 205 then
    Response.end rt
      { res with
        headers := removeHeader (setHeader res.headers "Content-Length" "0") "Transfer-Encoding" }
      (some Body.empty)
  else
    Response.end rt res (some chunk)

/-- The call `res.json(obj)` of Express 4, that is `res.send` of the serialised
object: the content headers are written, a fresh request turns the status into
304, and the response is stripped and ended. -/
def Response.json (rt : Runtime) (req : Request) (res : Response) (envelope : ErrorEnvelope) :
    StageResult :=
  let res : Response := { res with headers := contentHeaders rt res.headers envelope }
  let res := if req.fresh rt res then { res with statusCode := .number 304 } else res
  res.stripAndEnd rt (Body.json envelope)

/-! ## The CORS middleware (`app.js`, lines 14-49) -/

/-- Lines 17-20: the truthy ones among the two variables, joined with a comma. -/
def rawOrigins (env : Env) : String :=
  let rawParts : List String := []
  let rawParts := if optTruthy env.FRONTEND_URL then rawParts ++ env.FRONTEND_URL.toList else rawParts
  let rawParts := if optTruthy env.DASHBOARD_URL then rawParts ++ env.DASHBOARD_URL.toList else rawParts
  join rawParts

/-- Lines 21-24: the allow-list `allowed`. -/
def allowed (env : Env) : List String :=
  ((split (rawOrigins env)).map (fun s => stripTrailingSlashes (trim s))).filter strTruthy

/-- Line 27: `originNormalized`. -/
def originNormalized (origin : Option String) : String :=
  if optTruthy origin then stripTrailingSlashes (origin.getD "") else ""

/-- Lines 29-38: the decision on `Access-Control-Allow-Origin`. -/
def applyOrigin (allowedList : List String) (origin : Option String) (res : Response) :
    Except Thrown Response :=
  if optTruthy origin && allowedList.contains (originNormalized origin) then
    res.header "Access-Control-Allow-Origin" (origin.getD "")
  else if allowedList.length == 1 then
    res.header "Access-Control-Allow-Origin" (allowedList.headD "")
  else
    if optTruthy origin then res.header "Access-Control-Allow-Origin" (origin.getD "")
    else .ok res

/-- The CORS middleware, lines 14-49.  A call that throws leaves the function
at once, with the response as the calls before it made it. -/
def corsMiddleware (env : Env) (req : Request) (res : Response) : StageResult :=
  match applyOrigin (allowed env) req.origin res with
  | .error e => { res := res, outcome := .threw e }
  | .ok res1 =>
    match res1.header "Access-Control-Allow-Methods" "GET, POST, PUT, DELETE, OPTIONS" with
    | .error e => { res := res1, outcome := .threw e }
    | .ok res2 =>
      match res2.header "Access-Control-Allow-Headers" "Content-Type, Authorization" with
      | .error e => { res := res2, outcome := .threw e }
      | .ok res3 =>
        match res3.header "Access-Control-Allow-Credentials" "true" with
        | .error e => { res := res3, outcome := .threw e }
        | .ok res4 =>
          if req.method == "OPTIONS" then
            (res4.status (.number 200)).writeEnd (wrapInt32 200) none
          else
            { res := res4, outcome := .next }

/-- The three fixed headers of lines 40-42 written onto a header map (used to
state what the middleware leaves behind). -/
def fixedHeaders (hs : List (String × String)) : List (String × String) :=
  setHeader (setHeader (setHeader hs
    "Access-Control-Allow-Methods" "GET, POST, PUT, DELETE, OPTIONS")
    "Access-Control-Allow-Headers" "Content-Type, Authorization")
    "Access-Control-Allow-Credentials" "true"

/-! ## The error handler (`app.js`, lines 81-87) -/

/-- The properties of a failure object read by the error handler. -/
structure Failure where
  status : JSValue
  message : JSValue
  deriving DecidableEq, Repr

/-- The error handler, lines 81-87 (the `console.error` call has no effect on
the response). -/
def errorHandler (rt : Runtime) (err : Failure) (req : Request) (res : Response) : StageResult :=
  (res.status (err.status.or (.number 500))).json rt req
    { success := false, message := err.message.or (.string "Internal Server Error") }

/-- The value of `Access-Control-Allow-Origin` on a response. -/
def allowOrigin (res : Response) : Option String :=
  getHeader res.headers "Access-Control-Allow-Origin"

/-- The four header names written by the CORS middleware. -/
def corsHeaderNames : List String :=
  ["Access-Control-Allow-Origin", "Access-Control-Allow-Methods",
   "Access-Control-Allow-Headers", "Access-Control-Allow-Credentials"]

/-- The valid HTTP status codes (RFC 9110, section 15: 100 to 599). -/
def validHttpStatus (n : Int) : Bool := decide (100 ≤ n) && decide (n ≤ 599)

/-! ## Header map lemmas -/

theorem find_filter_ne_same (hs : List (String × String)) (name : String) :
    (hs.filter (fun p => p.1 != name)).find? (fun p => p.1 == name) = none := by
  rw [List.find?_eq_none]
  intro p hp
  have := (List.mem_filter.mp hp).2
  simpa using this

theorem find_filter_ne_other (hs : List (String × String)) (name other : String)
    (hne : name ≠ other) :
    (hs.filter (fun p => p.1 != name)).find? (fun p => p.1 == other)
      = hs.find? (fun p => p.1 == other) := by
  induction hs with
  | nil => rfl
  | cons p ps ih =>
    obtain ⟨k, v⟩ := p
    by_cases h : k = name
    · subst h
      simp [List.filter_cons, List.find?_cons, hne, ih]
    · by_cases h2 : k = other
      · subst h2
        simp [List.filter_cons, List.find?_cons, h]
      · simp [List.filter_cons, List.find?_cons, h, h2, ih]

theorem getHeader_setHeader_same (hs : List (String × String)) (name value : String) :
    getHeader (setHeader hs name value) name = some value := by
  simp [getHeader, setHeader, List.find?_append, find_filter_ne_same]

theorem getHeader_setHeader_ne (hs : List (String × String)) (name value other : String)
    (hne : name ≠ other) :
    getHeader (setHeader hs name value) other = getHeader hs other := by
  simp [getHeader, setHeader, List.find?_append, find_filter_ne_other hs name other hne,
    List.find?_cons, hne]

theorem countHeader_setHeader_same (hs : List (String × String)) (name value : String) :
    countHeader (setHeader hs name value) name = 1 := by
  have h : (hs.filter (fun p => p.1 != name)).filter (fun p => p.1 == name) = [] := by
    rw [List.filter_filter, List.filter_eq_nil_iff]
    intro p _
    by_cases e : p.1 = name <;> simp [e]
  simp [countHeader, setHeader, List.filter_append, h]

theorem countHeader_setHeader_ne (hs : List (String × String)) (name value other : String)
    (hne : name ≠ other) :
    countHeader (setHeader hs name value) other = countHeader hs other := by
  have h : (hs.filter (fun p => p.1 != name)).filter (fun p => p.1 == other)
      = hs.filter (fun p => p.1 == other) := by
    rw [List.filter_filter]
    apply List.filter_congr
    intro p _
    by_cases e : p.1 = other
    · have : ¬ p.1 = name := fun e' => hne (e' ▸ e)
      simp [e, hne.symm]
    · simp [e]
  simp [countHeader, setHeader, List.filter_append, h, hne]

theorem getHeader_eq_none_iff (hs : List (String × String)) (name : String) :
    getHeader hs name = none ↔ countHeader hs name = 0 := by
  simp [getHeader, countHeader, List.filter_eq_nil_iff]

theorem getHeader_removeHeader_ne (hs : List (String × String)) (name other : String)
    (hne : name ≠ other) :
    getHeader (removeHeader hs name) other = getHeader hs other := by
  simp [getHeader, removeHeader, find_filter_ne_other hs name other hne]

/-! ## Lemmas on the CORS middleware -/

theorem strTruthy_iff (s : String) : strTruthy s = true ↔ s ≠ "" := by
  simp [strTruthy]

theorem stripTrailingSlashes_empty : stripTrailingSlashes "" = "" := by decide

theorem empty_not_mem_allowed (env : Env) : "" ∉ allowed env := by
  intro h
  have := (List.mem_filter.mp h).2
  simp [strTruthy] at this

theorem optTruthy_eq_false_iff (origin : Option String) :
    optTruthy origin = false ↔ origin = none ∨ origin = some "" := by
  cases origin with
  | none => simp [optTruthy]
  | some o => simp [optTruthy, strTruthy]

theorem header_ok (res : Response) (name value : String) (h : isHeaderValue value = true) :
    res.header name value = Except.ok (res.put name value) := by
  simp [Response.header, h]

theorem header_error (res : Response) (name value : String) (h : isHeaderValue value = false) :
    res.header name value = Except.error (Thrown.invalidChar name) := by
  simp [Response.header, h]

/-- Echo branch: a non-empty origin whose slash-stripped form is listed. -/
theorem applyOrigin_listed (l : List String) (o : String) (res : Response)
    (ho : o ≠ "") (hmem : stripTrailingSlashes o ∈ l) :
    applyOrigin l (some o) res = res.header "Access-Control-Allow-Origin" o := by
  simp [applyOrigin, optTruthy, strTruthy, originNormalized, ho, hmem]

/-- Single-entry branch: the origin is falsy or its slash-stripped form is not the entry. -/
theorem applyOrigin_single (e : String) (origin : Option String) (res : Response)
    (h : ∀ o, origin = some o → stripTrailingSlashes o ≠ e) :
    applyOrigin [e] origin res = res.header "Access-Control-Allow-Origin" e := by
  cases origin with
  | none => simp [applyOrigin, optTruthy]
  | some o =>
    have h1 := h o rfl
    by_cases ho : o = ""
    · subst ho
      simp [applyOrigin, optTruthy, strTruthy]
    · simp [applyOrigin, optTruthy, strTruthy, originNormalized, ho, h1]

/-- Fallback branch with a non-empty origin. -/
theorem applyOrigin_fallback (l : List String) (o : String) (res : Response)
    (ho : o ≠ "") (hlen : l.length ≠ 1) :
    applyOrigin l (some o) res = res.header "Access-Control-Allow-Origin" o := by
  by_cases hmem : stripTrailingSlashes o ∈ l
  · exact applyOrigin_listed l o res ho hmem
  · simp [applyOrigin, optTruthy, strTruthy, originNormalized, ho, hmem, hlen]

/-- Fallback branch without a truthy origin: the response is left as it is. -/
theorem applyOrigin_none (l : List String) (origin : Option String) (res : Response)
    (ho : optTruthy origin = false) (hlen : l.length ≠ 1) :
    applyOrigin l origin res = Except.ok res := by
  simp [applyOrigin, ho, hlen]

theorem corsMiddleware_of_error (env : Env) (req : Request) (res : Response) (e : Thrown)
    (h : applyOrigin (allowed env) req.origin res = Except.error e) :
    corsMiddleware env req res = { res := res, outcome := Outcome.threw e } := by
  simp [corsMiddleware, h]

theorem corsMiddleware_of_ok (env : Env) (req : Request) (res res1 : Response)
    (h : applyOrigin (allowed env) req.origin res = Except.ok res1) :
    corsMiddleware env req res =
      if req.method = "OPTIONS" then
        { res := { res1 with headers := fixedHeaders res1.headers,
                             statusCode := JSValue.number 200, ended := true },
          outcome := Outcome.ended }
      else
        { res := { res1 with headers := fixedHeaders res1.headers }, outcome := Outcome.next } := by
  have h1 : isHeaderValue "GET, POST, PUT, DELETE, OPTIONS" = true := by decide
  have h2 : isHeaderValue "Content-Type, Authorization" = true := by decide
  have h3 : isHeaderValue "true" = true := by decide
  have h4 : wrapInt32 200 = 200 := by decide
  simp only [corsMiddleware, h, header_ok _ _ _ h1, header_ok _ _ _ h2, header_ok _ _ _ h3, h4]
  by_cases hm : req.method = "OPTIONS"
  · simp [hm, Response.writeEnd, Response.status, Response.put, fixedHeaders]
  · simp [hm, Response.put, fixedHeaders]

theorem getHeader_fixedHeaders_origin (hs : List (String × String)) :
    getHeader (fixedHeaders hs) "Access-Control-Allow-Origin"
      = getHeader hs "Access-Control-Allow-Origin" := by
  unfold fixedHeaders
  rw [getHeader_setHeader_ne _ _ _ _ (by decide), getHeader_setHeader_ne _ _ _ _ (by decide),
    getHeader_setHeader_ne _ _ _ _ (by decide)]

theorem countHeader_fixedHeaders_origin (hs : List (String × String)) :
    countHeader (fixedHeaders hs) "Access-Control-Allow-Origin"
      = countHeader hs "Access-Control-Allow-Origin" := by
  unfold fixedHeaders
  rw [countHeader_setHeader_ne _ _ _ _ (by decide), countHeader_setHeader_ne _ _ _ _ (by decide),
    countHeader_setHeader_ne _ _ _ _ (by decide)]

theorem getHeader_fixedHeaders (hs : List (String × String)) :
    getHeader (fixedHeaders hs) "Access-Control-Allow-Methods"
      = some "GET, POST, PUT, DELETE, OPTIONS" ∧
    getHeader (fixedHeaders hs) "Access-Control-Allow-Headers"
      = some "Content-Type, Authorization" ∧
    getHeader (fixedHeaders hs) "Access-Control-Allow-Credentials" = some "true" := by
  unfold fixedHeaders
  refine ⟨?_, ?_, ?_⟩
  · rw [getHeader_setHeader_ne _ _ _ _ (by decide), getHeader_setHeader_ne _ _ _ _ (by decide),
      getHeader_setHeader_same]
  · rw [getHeader_setHeader_ne _ _ _ _ (by decide), getHeader_setHeader_same]
  · rw [getHeader_setHeader_same]

/-- Once the origin decision went through, the middleware's response carries the
headers of the decision plus the fixed ones. -/
theorem corsMiddleware_headers_of_ok (env : Env) (req : Request) (res res1 : Response)
    (h : applyOrigin (allowed env) req.origin res = Except.ok res1) :
    (corsMiddleware env req res).res.headers = fixedHeaders res1.headers := by
  rw [corsMiddleware_of_ok env req res res1 h]
  by_cases hm : req.method = "OPTIONS" <;> simp [hm]

theorem corsMiddleware_allowOrigin_of_ok (env : Env) (req : Request) (res res1 : Response)
    (h : applyOrigin (allowed env) req.origin res = Except.ok res1) :
    allowOrigin (corsMiddleware env req res).res = allowOrigin res1 := by
  unfold allowOrigin
  rw [corsMiddleware_headers_of_ok env req res res1 h, getHeader_fixedHeaders_origin]

theorem allowOrigin_put (res : Response) (v : String) :
    allowOrigin (res.put "Access-Control-Allow-Origin" v) = some v := by
  simp [allowOrigin, Response.put, getHeader_setHeader_same]

theorem countHeader_put_origin (res : Response) (v : String) :
    countHeader (res.put "Access-Control-Allow-Origin" v).headers
      "Access-Control-Allow-Origin" = 1 := by
  simp [Response.put, countHeader_setHeader_same]

/-- The incoming origin is a legal header value. -/
theorem origin_isHeaderValue (req : Request) (o : String) (ho : req.origin = some o) :
    isHeaderValue o = true := by
  have := req.originParsed
  rw [ho] at this
  exact this

/-! ## Claims on the origin allow-list and the origin decision -/

/-- C1, as stated, fails: with the single configured origin `https://a.com` and
the request header `Origin: https://a.com/`, the allow-list is exactly
`["https://a.com"]`, yet the header emitted is the incoming `https://a.com/`,
not the configured entry. -/
theorem C1_single_entry_counterexample :
    allowed { FRONTEND_URL := some "https://a.com", DASHBOARD_URL := none } = ["https://a.com"] ∧
    allowOrigin (corsMiddleware { FRONTEND_URL := some "https://a.com", DASHBOARD_URL := none }
      { method := "GET", path := "/", origin := some "https://a.com/" } Response.fresh).res
      = some "https://a.com/" ∧
    allowOrigin (corsMiddleware { FRONTEND_URL := some "https://a.com", DASHBOARD_URL := none }
      { method := "GET", path := "/", origin := some "https://a.com/" } Response.fresh).res
      ≠ some "https://a.com" := by
  decide

/-- C1 (amended): when the allow-list has exactly one entry `e`, the CORS
middleware sets `Access-Control-Allow-Origin` to the literal incoming `Origin`
when that header is present and equals `e` once its trailing slashes are
stripped; in every other case (header absent, empty, or not matching) it sets
the header to exactly `e` provided `e` is made of characters Node accepts in a
header value, and when `e` holds another character the call `res.header` of
line 34 throws, the middleware sets no header at all and calls neither `next()`
nor `end()`. -/
theorem C1_single_entry (env : Env) (req : Request) (res : Response) (e : String)
    (h : allowed env = [e]) :
    (∀ o, req.origin = some o → stripTrailingSlashes o = e →
        allowOrigin (corsMiddleware env req res).res = some o) ∧
    ((∀ o, req.origin = some o → stripTrailingSlashes o ≠ e) → isHeaderValue e = true →
        allowOrigin (corsMiddleware env req res).res = some e) ∧
    ((∀ o, req.origin = some o → stripTrailingSlashes o ≠ e) → isHeaderValue e = false →
        corsMiddleware env req res =
          { res := res, outcome := Outcome.threw (Thrown.invalidChar "Access-Control-Allow-Origin") }) := by
  have he : e ≠ "" := by
    intro h0
    have := empty_not_mem_allowed env
    rw [h, h0] at this
    simp at this
  refine ⟨?_, ?_, ?_⟩
  · intro o ho hs
    have hne : o ≠ "" := by
      intro h0
      rw [h0, stripTrailingSlashes_empty] at hs
      exact he hs.symm
    have hok : applyOrigin (allowed env) req.origin res
        = Except.ok (res.put "Access-Control-Allow-Origin" o) := by
      rw [h, ho, applyOrigin_listed [e] o res hne (by simp [hs]),
        header_ok _ _ _ (origin_isHeaderValue req o ho)]
    rw [corsMiddleware_allowOrigin_of_ok env req res _ hok, allowOrigin_put]
  · intro hall hv
    have hok : applyOrigin (allowed env) req.origin res
        = Except.ok (res.put "Access-Control-Allow-Origin" e) := by
      rw [h, applyOrigin_single e req.origin res hall, header_ok _ _ _ hv]
    rw [corsMiddleware_allowOrigin_of_ok env req res _ hok, allowOrigin_put]
  · intro hall hv
    apply corsMiddleware_of_error
    rw [h, applyOrigin_single e req.origin res hall, header_error _ _ _ hv]

/-- Witness for C1 (amended): one configured origin, a request without `Origin`. -/
theorem C1_single_entry_witness :
    allowed { FRONTEND_URL := some "https://a.com/", DASHBOARD_URL := none } = ["https://a.com"] ∧
    isHeaderValue "https://a.com" = true ∧
    allowOrigin (corsMiddleware { FRONTEND_URL := some "https://a.com/", DASHBOARD_URL := none }
      { method := "GET", path := "/", origin := none } Response.fresh).res
      = some "https://a.com" :=
  ⟨by decide, by decide,
   (C1_single_entry { FRONTEND_URL := some "https://a.com/", DASHBOARD_URL := none }
      { method := "GET", path := "/", origin := none } Response.fresh "https://a.com"
      (by decide)).2.1 (by intro o ho; cases ho) (by decide)⟩

/-- C4, as stated, fails: the allow-list entries are trimmed, the incoming
`Origin` is not.  With the single configured origin `https://a.com` and the
header value `https://a.com` followed by a no-break space (U+00A0), the
trimmed and stripped header is a member of the allow-list, yet the emitted
value is the configured entry, not the literal incoming value. -/
theorem C4_listed_origin_counterexample :
    stripTrailingSlashes (trim "https://a.com\u00a0")
      ∈ allowed { FRONTEND_URL := some "https://a.com", DASHBOARD_URL := none } ∧
    allowOrigin (corsMiddleware { FRONTEND_URL := some "https://a.com", DASHBOARD_URL := none }
      { method := "GET", path := "/", origin := some "https://a.com\u00a0" } Response.fresh).res
      = some "https://a.com" ∧
    allowOrigin (corsMiddleware { FRONTEND_URL := some "https://a.com", DASHBOARD_URL := none }
      { method := "GET", path := "/", origin := some "https://a.com\u00a0" } Response.fresh).res
      ≠ some "https://a.com\u00a0" := by
  decide

/-- C4 (amended): for every request whose `Origin` header is present and whose
form with trailing slashes stripped (white space is not trimmed) is a member of
the allow-list, whatever the size of the allow-list, the CORS middleware sets
`Access-Control-Allow-Origin` to the literal incoming `Origin` value. -/
theorem C4_listed_origin (env : Env) (req : Request) (res : Response) (o : String)
    (ho : req.origin = some o) (hmem : stripTrailingSlashes o ∈ allowed env) :
    allowOrigin (corsMiddleware env req res).res = some o := by
  have hne : o ≠ "" := by
    intro h0
    rw [h0, stripTrailingSlashes_empty] at hmem
    exact empty_not_mem_allowed env hmem
  have hok : applyOrigin (allowed env) req.origin res
      = Except.ok (res.put "Access-Control-Allow-Origin" o) := by
    rw [ho, applyOrigin_listed _ o res hne hmem, header_ok _ _ _ (origin_isHeaderValue req o ho)]
  rw [corsMiddleware_allowOrigin_of_ok env req res _ hok, allowOrigin_put]

/-- Witness for C4 (amended): the allow-list of the specification's third
testable property and an origin with two trailing slashes. -/
theorem C4_listed_origin_witness :
    stripTrailingSlashes "https://b.com//"
      ∈ allowed { FRONTEND_URL := some "https://a.com", DASHBOARD_URL := some "https://b.com/" } ∧
    allowOrigin (corsMiddleware
      { FRONTEND_URL := some "https://a.com", DASHBOARD_URL := some "https://b.com/" }
      { method := "GET", path := "/", origin := some "https://b.com//" } Response.fresh).res
      = some "https://b.com//" :=
  ⟨by decide,
   C4_listed_origin
      { FRONTEND_URL := some "https://a.com", DASHBOARD_URL := some "https://b.com/" }
      { method := "GET", path := "/", origin := some "https://b.com//" } Response.fresh
      "https://b.com//" rfl (by decide)⟩

/-- C6, as stated, fails: nothing removes repeated entries.  When both variables
hold `https://a.com` the allow-list holds that origin twice. -/
theorem C6_allowed_counterexample :
    allowed { FRONTEND_URL := some "https://a.com", DASHBOARD_URL := some "https://a.com" }
      = ["https://a.com", "https://a.com"] ∧
    ¬ (allowed { FRONTEND_URL := some "https://a.com", DASHBOARD_URL := some "https://a.com" }).Nodup := by
  decide

/-- C6 (amended): for every pair of configuration values, the allow-list computed
by the CORS middleware contains no empty string (equal entries are kept). -/
theorem C6_allowed_no_empty (env : Env) : "" ∉ allowed env ∧ ∀ s ∈ allowed env, s ≠ "" := by
  refine ⟨empty_not_mem_allowed env, ?_⟩
  intro s hs h0
  exact empty_not_mem_allowed env (h0 ▸ hs)

/-- C7, as stated, fails: an `Origin` header that is present but empty is
treated like an absent one.  With no origin configured and `Origin:` empty, no
`Access-Control-Allow-Origin` header is set. -/
theorem C7_fallback_echo_counterexample :
    (allowed { FRONTEND_URL := none, DASHBOARD_URL := none }).length = 0 ∧
    allowOrigin (corsMiddleware { FRONTEND_URL := none, DASHBOARD_URL := none }
      { method := "GET", path := "/", origin := some "" } Response.fresh).res = none ∧
    allowOrigin (corsMiddleware { FRONTEND_URL := none, DASHBOARD_URL := none }
      { method := "GET", path := "/", origin := some "" } Response.fresh).res ≠ some "" := by
  decide

/-- C7 (amended): for every request that provides a non-empty `Origin` header and
every allow-list with zero or at least two entries, the CORS middleware sets
`Access-Control-Allow-Origin` to the literal incoming `Origin` value, whether or
not that origin is a member of the allow-list; so the emitted value is the same
for any two such allow-lists. -/
theorem C7_fallback_echo (env : Env) (req : Request) (res : Response) (o : String)
    (ho : req.origin = some o) (hne : o ≠ "") (hlen : (allowed env).length ≠ 1) :
    allowOrigin (corsMiddleware env req res).res = some o ∧
    ∀ env2 : Env, (allowed env2).length ≠ 1 →
      allowOrigin (corsMiddleware env2 req res).res
        = allowOrigin (corsMiddleware env req res).res := by
  have key : ∀ e : Env, (allowed e).length ≠ 1 →
      allowOrigin (corsMiddleware e req res).res = some o := by
    intro e he
    have hok : applyOrigin (allowed e) req.origin res
        = Except.ok (res.put "Access-Control-Allow-Origin" o) := by
      rw [ho, applyOrigin_fallback _ o res hne he,
        header_ok _ _ _ (origin_isHeaderValue req o ho)]
    rw [corsMiddleware_allowOrigin_of_ok e req res _ hok, allowOrigin_put]
  exact ⟨key env hlen, fun env2 h2 => by rw [key env2 h2, key env hlen]⟩

/-- Witness for C7 (amended): two configured origins, an unlisted origin. -/
theorem C7_fallback_echo_witness :
    (allowed { FRONTEND_URL := some "https://a.com", DASHBOARD_URL := some "https://b.com" }).length
      = 2 ∧
    "https://evil.example" ≠ "" ∧
    allowOrigin (corsMiddleware
      { FRONTEND_URL := some "https://a.com", DASHBOARD_URL := some "https://b.com" }
      { method := "GET", path := "/", origin := some "https://evil.example" } Response.fresh).res
      = some "https://evil.example" :=
  ⟨by decide, by decide,
   (C7_fallback_echo
      { FRONTEND_URL := some "https://a.com", DASHBOARD_URL := some "https://b.com" }
      { method := "GET", path := "/", origin := some "https://evil.example" } Response.fresh
      "https://evil.example" rfl (by decide) (by decide)).1⟩

/-- The outcome of the origin decision: the response is left alone (no truthy
origin, allow-list of length other than one), or the header is set to one value,
or the single entry is not a legal header value and the call throws. -/
theorem applyOrigin_cases (l : List String) (origin : Option String) (res : Response)
    (hp : isParsedHeader origin = true) :
    (optTruthy origin = false ∧ l.length ≠ 1 ∧ applyOrigin l origin res = Except.ok res) ∨
    (¬ (optTruthy origin = false ∧ l.length ≠ 1) ∧
      ¬ (∃ e, l = [e] ∧ isHeaderValue e = false ∧
          ∀ o, origin = some o → stripTrailingSlashes o ≠ e ∨ o = "") ∧
      ∃ v, applyOrigin l origin res = Except.ok (res.put "Access-Control-Allow-Origin" v)) ∨
    ((∃ e, l = [e] ∧ isHeaderValue e = false ∧
          ∀ o, origin = some o → stripTrailingSlashes o ≠ e ∨ o = "") ∧
      applyOrigin l origin res = Except.error (Thrown.invalidChar "Access-Control-Allow-Origin")) := by
  by_cases ht : optTruthy origin = true
  · -- a non-empty origin
    obtain ⟨o, rfl⟩ : ∃ o, origin = some o := by
      cases origin with
      | none => simp [optTruthy] at ht
      | some o => exact ⟨o, rfl⟩
    have hne : o ≠ "" := by simpa [optTruthy, strTruthy] using ht
    have hv : isHeaderValue o = true := hp
    by_cases hmem : stripTrailingSlashes o ∈ l
    · right; left
      refine ⟨fun h => by simp [ht] at h, ?_, o, ?_⟩
      · rintro ⟨e, hl, _, hall⟩
        rcases hall o rfl with h1 | h1
        · rw [hl] at hmem
          exact h1 (by simpa using hmem)
        · exact hne h1
      · rw [applyOrigin_listed l o res hne hmem, header_ok _ _ _ hv]
    · by_cases hlen : l.length = 1
      · obtain ⟨e, rfl⟩ := List.length_eq_one.mp hlen
        have hse : stripTrailingSlashes o ≠ e := by simpa using hmem
        have happ := applyOrigin_single e (some o) res (by intro o2 h2; cases h2; exact hse)
        by_cases hve : isHeaderValue e = true
        · right; left
          refine ⟨fun h => h.2 hlen, ?_, e, ?_⟩
          · rintro ⟨e2, hl, hv2, _⟩
            have : e = e2 := by simpa using hl
            rw [← this, hve] at hv2
            cases hv2
          · rw [happ, header_ok _ _ _ hve]
        · right; right
          have hve2 : isHeaderValue e = false := by simpa using hve
          exact ⟨⟨e, rfl, hve2, fun o2 h2 => by cases h2; exact Or.inl hse⟩,
            by rw [happ, header_error _ _ _ hve2]⟩
      · right; left
        refine ⟨fun h => by simp [ht] at h, ?_, o, ?_⟩
        · rintro ⟨e, hl, _, _⟩
          rw [hl] at hlen
          exact hlen rfl
        · rw [applyOrigin_fallback l o res hne hlen, header_ok _ _ _ hv]
  · -- no origin, or an empty one
    have hf : optTruthy origin = false := by simpa using ht
    have hall : ∀ e o, origin = some o → stripTrailingSlashes o ≠ e ∨ o = "" := by
      intro e o ho
      right
      rcases (optTruthy_eq_false_iff origin).mp hf with h | h
      · rw [h] at ho; cases ho
      · rw [h] at ho; cases ho; rfl
    by_cases hlen : l.length = 1
    · obtain ⟨e, rfl⟩ := List.length_eq_one.mp hlen
      have happ : applyOrigin [e] origin res = res.header "Access-Control-Allow-Origin" e := by
        simp [applyOrigin, hf]
      by_cases hve : isHeaderValue e = true
      · right; left
        refine ⟨fun h => h.2 hlen, ?_, e, ?_⟩
        · rintro ⟨e2, hl, hv2, _⟩
          have : e = e2 := by simpa using hl
          rw [← this, hve] at hv2
          cases hv2
        · rw [happ, header_ok _ _ _ hve]
      · right; right
        have hve2 : isHeaderValue e = false := by simpa using hve
        exact ⟨⟨e, rfl, hve2, hall e⟩, by rw [happ, header_error _ _ _ hve2]⟩
    · left
      exact ⟨hf, hlen, applyOrigin_none l origin res hf hlen⟩

/-- C8, as stated, fails in the "only if" direction: with no origin configured
and an `Origin` header that is present but empty, no
`Access-Control-Allow-Origin` header is emitted although the request carries the
header. -/
theorem C8_no_header_counterexample :
    ¬ (allowOrigin (corsMiddleware { FRONTEND_URL := none, DASHBOARD_URL := none }
        { method := "GET", path := "/", origin := some "" } Response.fresh).res = none ↔
      ((some "" : Option String) = none ∧
        (allowed { FRONTEND_URL := none, DASHBOARD_URL := none }).length ≠ 1)) := by
  decide

/-- C8 (amended): on a response that carries no `Access-Control-Allow-Origin` yet,
the CORS middleware emits none if and only if either the request's `Origin`
header is absent or empty and the allow-list has zero or at least two entries,
or the allow-list has a single entry that holds a character Node rejects in a
header value and the request's `Origin` does not match it (the call
`res.header` of line 34 then throws); in every other case exactly one value is
set for that header. -/
theorem C8_no_header_iff (env : Env) (req : Request) (res : Response)
    (h0 : countHeader res.headers "Access-Control-Allow-Origin" = 0) :
    (allowOrigin (corsMiddleware env req res).res = none ↔
      (((req.origin = none ∨ req.origin = some "") ∧ (allowed env).length ≠ 1) ∨
       (∃ e, allowed env = [e] ∧ isHeaderValue e = false ∧
          ∀ o, req.origin = some o → stripTrailingSlashes o ≠ e))) ∧
    (¬ (((req.origin = none ∨ req.origin = some "") ∧ (allowed env).length ≠ 1) ∨
        (∃ e, allowed env = [e] ∧ isHeaderValue e = false ∧
          ∀ o, req.origin = some o → stripTrailingSlashes o ≠ e)) →
      countHeader (corsMiddleware env req res).res.headers "Access-Control-Allow-Origin" = 1 ∧
      ∃ v, allowOrigin (corsMiddleware env req res).res = some v) := by
  have hnone : allowOrigin res = none := (getHeader_eq_none_iff _ _).mpr h0
  -- the two ways of saying that the origin does not match the single entry
  have hB : (∃ e, allowed env = [e] ∧ isHeaderValue e = false ∧
        ∀ o, req.origin = some o → stripTrailingSlashes o ≠ e ∨ o = "") ↔
      (∃ e, allowed env = [e] ∧ isHeaderValue e = false ∧
        ∀ o, req.origin = some o → stripTrailingSlashes o ≠ e) := by
    constructor
    · rintro ⟨e, hl, hv, hall⟩
      refine ⟨e, hl, hv, fun o ho => ?_⟩
      rcases hall o ho with h | h
      · exact h
      · intro hs
        rw [h, stripTrailingSlashes_empty] at hs
        have := empty_not_mem_allowed env
        rw [hl, ← hs] at this
        simp at this
    · rintro ⟨e, hl, hv, hall⟩
      exact ⟨e, hl, hv, fun o ho => Or.inl (hall o ho)⟩
  rw [← optTruthy_eq_false_iff, ← hB]
  rcases applyOrigin_cases (allowed env) req.origin res req.originParsed with
    ⟨h1, h2, h3⟩ | ⟨h1, h2, v, hv⟩ | ⟨h1, h2⟩
  · have hA : allowOrigin (corsMiddleware env req res).res = none := by
      rw [corsMiddleware_allowOrigin_of_ok env req res res h3, hnone]
    exact ⟨⟨fun _ => Or.inl ⟨h1, h2⟩, fun _ => hA⟩, fun hn => absurd (Or.inl ⟨h1, h2⟩) hn⟩
  · have hA : allowOrigin (corsMiddleware env req res).res = some v := by
      rw [corsMiddleware_allowOrigin_of_ok env req res _ hv, allowOrigin_put]
    have hC : countHeader (corsMiddleware env req res).res.headers
        "Access-Control-Allow-Origin" = 1 := by
      rw [corsMiddleware_headers_of_ok env req res _ hv, countHeader_fixedHeaders_origin,
        countHeader_put_origin]
    refine ⟨⟨fun h => ?_, fun h => ?_⟩, fun _ => ⟨hC, v, hA⟩⟩
    · rw [hA] at h; cases h
    · rcases h with h | h
      · exact absurd h h1
      · exact absurd h h2
  · have hA : allowOrigin (corsMiddleware env req res).res = none := by
      rw [corsMiddleware_of_error env req res _ h2]
      exact hnone
    exact ⟨⟨fun _ => Or.inr h1, fun _ => hA⟩, fun hn => absurd (Or.inr h1) hn⟩

/-- Witness for C8 (amended): a fresh response, no origin configured, no `Origin`
header: no `Access-Control-Allow-Origin` is emitted. -/
theorem C8_no_header_iff_witness :
    countHeader Response.fresh.headers "Access-Control-Allow-Origin" = 0 ∧
    allowOrigin (corsMiddleware { FRONTEND_URL := none, DASHBOARD_URL := none }
      { method := "GET", path := "/", origin := none } Response.fresh).res = none :=
  ⟨by decide,
   ((C8_no_header_iff { FRONTEND_URL := none, DASHBOARD_URL := none }
      { method := "GET", path := "/", origin := none } Response.fresh (by decide)).1).mpr
      (Or.inl ⟨Or.inl rfl, by decide⟩)⟩

/-! ## Preflight short-circuit -/

/-- C9, as stated, fails: the origin decision comes first and can throw.  With
the single configured origin `https://例.com` (a character Node rejects in a
header value) and an `OPTIONS` request without `Origin`, the call `res.header`
of line 34 throws before lines 40-45 are reached: the middleware does not end
the response and none of the fixed CORS headers is set. -/
theorem C9_preflight_counterexample :
    (corsMiddleware { FRONTEND_URL := some "https://例.com", DASHBOARD_URL := none }
      { method := "OPTIONS", path := "/", origin := none } Response.fresh).outcome
      = Outcome.threw (Thrown.invalidChar "Access-Control-Allow-Origin") ∧
    (corsMiddleware { FRONTEND_URL := some "https://例.com", DASHBOARD_URL := none }
      { method := "OPTIONS", path := "/", origin := none } Response.fresh).res.ended = false ∧
    getHeader (corsMiddleware { FRONTEND_URL := some "https://例.com", DASHBOARD_URL := none }
      { method := "OPTIONS", path := "/", origin := none } Response.fresh).res.headers
      "Access-Control-Allow-Methods" = none := by
  decide

/-- C9 (amended): for every request whose method is `OPTIONS`, whatever its path,
its `Origin` header and the allow-list, provided the origin decision does not
throw (it throws only when the allow-list is a single entry holding a character
Node rejects in a header value and the request's `Origin` does not match that
entry), the CORS middleware ends the response with status 200 and an empty body
without calling `next()`, and the response carries the three fixed CORS
headers. -/
theorem C9_preflight (env : Env) (req : Request) (res : Response)
    (hm : req.method = "OPTIONS") (hb : res.body = Body.empty)
    (hok : ∀ e, allowed env = [e] →
      isHeaderValue e = true ∨ ∃ o, req.origin = some o ∧ stripTrailingSlashes o = e) :
    (corsMiddleware env req res).outcome = Outcome.ended ∧
    (corsMiddleware env req res).res.ended = true ∧
    (corsMiddleware env req res).res.statusCode = JSValue.number 200 ∧
    (corsMiddleware env req res).res.body = Body.empty ∧
    getHeader (corsMiddleware env req res).res.headers "Access-Control-Allow-Methods"
      = some "GET, POST, PUT, DELETE, OPTIONS" ∧
    getHeader (corsMiddleware env req res).res.headers "Access-Control-Allow-Headers"
      = some "Content-Type, Authorization" ∧
    getHeader (corsMiddleware env req res).res.headers "Access-Control-Allow-Credentials"
      = some "true" := by
  -- the origin decision goes through, leaving the body alone
  have hdec : ∃ res1, applyOrigin (allowed env) req.origin res = Except.ok res1 ∧
      res1.body = Body.empty := by
    rcases applyOrigin_cases (allowed env) req.origin res req.originParsed with
      ⟨_, _, h3⟩ | ⟨_, _, v, hv⟩ | ⟨⟨e, hl, hv, hall⟩, _⟩
    · exact ⟨res, h3, hb⟩
    · exact ⟨_, hv, hb⟩
    · exfalso
      rcases hok e hl with h | ⟨o, ho, hs⟩
      · rw [h] at hv; cases hv
      · rcases hall o ho with h | h
        · exact h hs
        · rw [h, stripTrailingSlashes_empty] at hs
          have := empty_not_mem_allowed env
          rw [hl, ← hs] at this
          simp at this
  obtain ⟨res1, h1, hb1⟩ := hdec
  have hfix := getHeader_fixedHeaders res1.headers
  rw [corsMiddleware_of_ok env req res res1 h1, if_pos hm]
  exact ⟨rfl, rfl, rfl, hb1, hfix.1, hfix.2.1, hfix.2.2⟩

/-- Witness for C9 (amended): a preflight to an API path from an unlisted origin. -/
theorem C9_preflight_witness :
    isHeaderValue "https://a.com" = true ∧
    (corsMiddleware { FRONTEND_URL := some "https://a.com", DASHBOARD_URL := none }
      { method := "OPTIONS", path := "/api/v1/user/login", origin := some "https://x.org" }
      Response.fresh).outcome = Outcome.ended ∧
    (corsMiddleware { FRONTEND_URL := some "https://a.com", DASHBOARD_URL := none }
      { method := "OPTIONS", path := "/api/v1/user/login", origin := some "https://x.org" }
      Response.fresh).res.statusCode = JSValue.number 200 :=
  have h := C9_preflight { FRONTEND_URL := some "https://a.com", DASHBOARD_URL := none }
    { method := "OPTIONS", path := "/api/v1/user/login", origin := some "https://x.org" }
    Response.fresh rfl rfl
    (by
      intro e he
      have h2 : allowed { FRONTEND_URL := some "https://a.com", DASHBOARD_URL := none }
          = ["https://a.com"] := by decide
      rw [h2] at he
      have : e = "https://a.com" := by simpa using he.symm
      subst this
      exact Or.inl (by decide))
  ⟨by decide, h.1, h.2.2.1⟩

/-! ## Lemmas on the error handler -/

theorem contentHeaders_getHeader (rt : Runtime) (hs : List (String × String))
    (envelope : ErrorEnvelope) (name : String)
    (h1 : name ≠ "Content-Type") (h2 : name ≠ "Content-Length") (h3 : name ≠ "ETag") :
    getHeader (contentHeaders rt hs envelope) name = getHeader hs name := by
  have e1 := fun hs v => getHeader_setHeader_ne hs "Content-Type" v name (Ne.symm h1)
  have e2 := fun hs v => getHeader_setHeader_ne hs "Content-Length" v name (Ne.symm h2)
  have e3 := fun hs v => getHeader_setHeader_ne hs "ETag" v name (Ne.symm h3)
  simp only [contentHeaders]
  split_ifs <;> (repeat' split) <;> simp only [e1, e2, e3]

theorem writeEnd_headers (res : Response) (code : Int) (chunk : Option Body) :
    (res.writeEnd code chunk).res.headers = res.headers := by
  unfold Response.writeEnd
  split_ifs <;> rfl

theorem stripAndEnd_getHeader (rt : Runtime) (res : Response) (chunk : Body) (name : String)
    (h1 : name ≠ "Content-Type") (h2 : name ≠ "Content-Length")
    (h4 : name ≠ "Transfer-Encoding") :
    getHeader (res.stripAndEnd rt chunk).res.headers name = getHeader res.headers name := by
  have e2 := fun hs v => getHeader_setHeader_ne hs "Content-Length" v name (Ne.symm h2)
  have r1 := fun hs => getHeader_removeHeader_ne hs "Content-Type" name (Ne.symm h1)
  have r2 := fun hs => getHeader_removeHeader_ne hs "Content-Length" name (Ne.symm h2)
  have r4 := fun hs => getHeader_removeHeader_ne hs "Transfer-Encoding" name (Ne.symm h4)
  unfold Response.stripAndEnd Response.end
  split_ifs <;> simp only [writeEnd_headers, e2, r1, r2, r4]

/-- The call `res.json` leaves every header other than the content headers as it
was, whether it ends the response or throws. -/
theorem json_getHeader (rt : Runtime) (req : Request) (res : Response)
    (envelope : ErrorEnvelope) (name : String)
    (h1 : name ≠ "Content-Type") (h2 : name ≠ "Content-Length") (h3 : name ≠ "ETag")
    (h4 : name ≠ "Transfer-Encoding") :
    getHeader (res.json rt req envelope).res.headers name = getHeader res.headers name := by
  unfold Response.json
  simp only []
  rw [stripAndEnd_getHeader rt _ _ name h1 h2 h4]
  split_ifs <;> exact contentHeaders_getHeader rt res.headers envelope name h1 h2 h3

theorem errorHandler_getHeader (rt : Runtime) (err : Failure) (req : Request) (res : Response)
    (name : String)
    (h1 : name ≠ "Content-Type") (h2 : name ≠ "Content-Length") (h3 : name ≠ "ETag")
    (h4 : name ≠ "Transfer-Encoding") :
    getHeader (errorHandler rt err req res).res.headers name = getHeader res.headers name := by
  unfold errorHandler
  rw [json_getHeader rt req _ _ name h1 h2 h3 h4]
  rfl

theorem wrapInt32_eq (n : Int) (hlo : -2147483648 ≤ n) (hhi : n ≤ 2147483647) :
    wrapInt32 n = n := by
  unfold wrapInt32
  omega

theorem toInt32_number (rt : Runtime) (n : Int) (hlo : -2147483648 ≤ n) (hhi : n ≤ 2147483647) :
    toInt32 rt (JSValue.number n) = n := by
  simp [toInt32, toNumber, wrapInt32_eq n hlo hhi]

/-- Ending a response whose status is an integer that Node accepts. -/
theorem end_number (rt : Runtime) (res : Response) (chunk : Option Body) (n : Int)
    (hs : res.statusCode = JSValue.number n) (hlo : 100 ≤ n) (hhi : n ≤ 999) :
    Response.end rt res chunk =
      { res := { res with statusCode := JSValue.number n, body := chunk.getD res.body,
                          ended := true },
        outcome := Outcome.ended } := by
  have h32 : toInt32 rt (JSValue.number n) = n := toInt32_number rt n (by omega) (by omega)
  have hc : ¬ (n < 100 ∨ n > 999) := by omega
  simp [Response.end, Response.writeEnd, hs, h32, hc]

/-- Ending a response whose status is an integer outside 100..999 throws. -/
theorem end_number_throws (rt : Runtime) (res : Response) (chunk : Option Body) (n : Int)
    (hs : res.statusCode = JSValue.number n) (hout : n < 100 ∨ 999 < n)
    (hlo : -2147483648 ≤ n) (hhi : n ≤ 2147483647) :
    Response.end rt res chunk =
      { res := res, outcome := Outcome.threw (Thrown.invalidStatusCode (JSValue.number n)) } := by
  have h32 : toInt32 rt (JSValue.number n) = n := toInt32_number rt n hlo hhi
  have hc : n < 100 ∨ n > 999 := by omega
  simp [Response.end, Response.writeEnd, hs, h32, hc]

theorem stripAndEnd_number (rt : Runtime) (res : Response) (chunk : Body) (n : Int)
    (hs : res.statusCode = JSValue.number n) (hlo : 100 ≤ n) (hhi : n ≤ 999) :
    (res.stripAndEnd rt chunk).outcome = Outcome.ended ∧
    (res.stripAndEnd rt chunk).res.statusCode = JSValue.number n ∧
    (res.stripAndEnd rt chunk).res.ended = true ∧
    (res.stripAndEnd rt chunk).res.body
      = if n = 204 ∨ n = 304 ∨ n = 205 then Body.empty else chunk := by
  unfold Response.stripAndEnd
  by_cases h1 : n = 204 ∨ n = 304
  · have hc : (res.statusCode == JSValue.number 204 || res.statusCode == JSValue.number 304)
        = true := by
      rcases h1 with h | h <;> simp [hs, h]
    rw [if_pos hc, end_number rt _ _ n (by exact hs) hlo hhi]
    have : n = 204 ∨ n = 304 ∨ n = 205 := by omega
    simp [this]
  · have hc : ¬ ((res.statusCode == JSValue.number 204 || res.statusCode == JSValue.number 304)
        = true) := by
      simp only [hs, Bool.or_eq_true, beq_iff_eq, JSValue.number.injEq]
      exact h1
    rw [if_neg hc]
    by_cases h2 : n = 205
    · have hc2 : (res.statusCode == JSValue.number 205) = true := by simp [hs, h2]
      rw [if_pos hc2, end_number rt _ _ n (by exact hs) hlo hhi]
      simp [h2]
    · have hc2 : ¬ ((res.statusCode == JSValue.number 205) = true) := by
        simp only [hs, beq_iff_eq, JSValue.number.injEq]
        exact h2
      rw [if_neg hc2, end_number rt _ _ n (by exact hs) hlo hhi]
      have : ¬ (n = 204 ∨ n = 304 ∨ n = 205) := by omega
      simp [this]

theorem stripAndEnd_number_throws (rt : Runtime) (res : Response) (chunk : Body) (n : Int)
    (hs : res.statusCode = JSValue.number n) (hout : n < 100 ∨ 999 < n)
    (hlo : -2147483648 ≤ n) (hhi : n ≤ 2147483647) :
    (res.stripAndEnd rt chunk).outcome
      = Outcome.threw (Thrown.invalidStatusCode (JSValue.number n)) ∧
    (res.stripAndEnd rt chunk).res.ended = res.ended := by
  unfold Response.stripAndEnd
  have hc : ¬ ((res.statusCode == JSValue.number 204 || res.statusCode == JSValue.number 304)
      = true) := by
    simp only [hs, Bool.or_eq_true, beq_iff_eq, JSValue.number.injEq]
    omega
  have hc2 : ¬ ((res.statusCode == JSValue.number 205) = true) := by
    simp only [hs, beq_iff_eq, JSValue.number.injEq]
    omega
  rw [if_neg hc, if_neg hc2, end_number_throws rt _ _ n (by exact hs) hout hlo hhi]
  exact ⟨rfl, rfl⟩

/-- The freshness test is negative when the status is an integer outside 2xx
other than 304, and for every method other than `GET` and `HEAD`. -/
theorem fresh_number (rt : Runtime) (req : Request) (res : Response) (n : Int)
    (hs : res.statusCode = JSValue.number n)
    (h : ¬ (200 ≤ n ∧ n < 300) ∧ n ≠ 304 ∨ (req.method ≠ "GET" ∧ req.method ≠ "HEAD")) :
    req.fresh rt res = false := by
  unfold Request.fresh
  rcases h with ⟨h1, h2⟩ | ⟨h1, h2⟩
  · have h3 : ¬ (200 ≤ n ∧ n < 300) := h1
    simp [hs, toNumber, h3, h2]
  · simp [h1, h2]

/-- The status after the freshness step of `res.json`, for an integer status `n`:
still `n`, or 304 for a 2xx status on a fresh `GET` or `HEAD`. -/
theorem json_number (rt : Runtime) (req : Request) (res : Response)
    (envelope : ErrorEnvelope) (n : Int) (hs : res.statusCode = JSValue.number n) :
    (¬ (200 ≤ n ∧ n < 300) ∨ (req.method ≠ "GET" ∧ req.method ≠ "HEAD") →
      res.json rt req envelope
        = Response.stripAndEnd rt
            { res with headers := contentHeaders rt res.headers envelope }
            (Body.json envelope)) ∧
    (res.json rt req envelope
        = Response.stripAndEnd rt
            { res with headers := contentHeaders rt res.headers envelope }
            (Body.json envelope) ∨
     (200 ≤ n ∧ n < 300) ∧ (req.method = "GET" ∨ req.method = "HEAD") ∧
      res.json rt req envelope
        = Response.stripAndEnd rt
            { res with headers := contentHeaders rt res.headers envelope,
                       statusCode := JSValue.number 304 }
            (Body.json envelope)) := by
  refine ⟨?_, ?_⟩
  · intro h
    unfold Response.json
    simp only []
    by_cases hf : req.fresh rt { res with headers := contentHeaders rt res.headers envelope } = true
    · rw [if_pos hf]
      -- a fresh request outside 2xx has status 304 already
      have h304 : n = 304 := by
        by_contra hne
        have := fresh_number rt req
          { res with headers := contentHeaders rt res.headers envelope } n hs
          (by
            rcases h with h | h
            · exact Or.inl ⟨h, hne⟩
            · exact Or.inr h)
        rw [this] at hf
        cases hf
      rw [← h304, ← hs]
    · rw [if_neg hf]
  · unfold Response.json
    simp only []
    by_cases hf : req.fresh rt { res with headers := contentHeaders rt res.headers envelope } = true
    · rw [if_pos hf]
      by_cases h2 : 200 ≤ n ∧ n < 300
      · right
        refine ⟨h2, ?_, rfl⟩
        by_contra hm
        have hm2 : req.method ≠ "GET" ∧ req.method ≠ "HEAD" := by
          constructor
          · intro h; exact hm (Or.inl h)
          · intro h; exact hm (Or.inr h)
        have := fresh_number rt req
          { res with headers := contentHeaders rt res.headers envelope } n hs (Or.inr hm2)
        rw [this] at hf
        cases hf
      · left
        have h304 : n = 304 := by
          by_contra hne
          have := fresh_number rt req
            { res with headers := contentHeaders rt res.headers envelope } n hs
            (Or.inl ⟨h2, hne⟩)
          rw [this] at hf
          cases hf
        rw [← h304, ← hs]
    · rw [if_neg hf]
      exact Or.inl rfl

/-- The error handler on a failure whose defaulted status is an integer that
Node accepts and that lies outside 2xx. -/
theorem errorHandler_number (rt : Runtime) (err : Failure) (req : Request) (res : Response)
    (n : Int) (hs : err.status.or (JSValue.number 500) = JSValue.number n)
    (hlo : 100 ≤ n) (hhi : n ≤ 999) (h2 : ¬ (200 ≤ n ∧ n < 300)) :
    (errorHandler rt err req res).outcome = Outcome.ended ∧
    (errorHandler rt err req res).res.statusCode = JSValue.number n ∧
    (errorHandler rt err req res).res.ended = true ∧
    (errorHandler rt err req res).res.body =
      if n = 304 then Body.empty
      else Body.json { success := false,
                       message := err.message.or (JSValue.string "Internal Server Error") } := by
  unfold errorHandler
  rw [(json_number rt req (res.status (err.status.or (JSValue.number 500))) _ n
    (by simp [Response.status, hs])).1 (Or.inl h2)]
  have h := stripAndEnd_number rt
    { res.status (err.status.or (JSValue.number 500)) with
      headers := contentHeaders rt (res.status (err.status.or (JSValue.number 500))).headers
        { success := false,
          message := err.message.or (JSValue.string "Internal Server Error") } }
    (Body.json { success := false,
                 message := err.message.or (JSValue.string "Internal Server Error") })
    n (by simp [Response.status, hs]) hlo hhi
  refine ⟨h.1, h.2.1, h.2.2.1, ?_⟩
  rw [h.2.2.2]
  by_cases h304 : n = 304
  · rw [if_pos (Or.inr (Or.inl h304)), if_pos h304]
  · have : ¬ (n = 204 ∨ n = 304 ∨ n = 205) := by omega
    rw [if_neg this, if_neg h304]

/-- C2, as stated, fails: the handler does not check that the status is a valid
HTTP status.  A failure declaring status 700 (outside 100..599) is answered
with status 700, not 500. -/
theorem C2_status_counterexample :
    validHttpStatus 700 = false ∧
    (errorHandler Runtime.sample { status := JSValue.number 700, message := JSValue.string "X" }
      { method := "GET", path := "/", origin := none } Response.fresh).outcome = Outcome.ended ∧
    (errorHandler Runtime.sample { status := JSValue.number 700, message := JSValue.string "X" }
      { method := "GET", path := "/", origin := none } Response.fresh).res.statusCode
      = JSValue.number 700 ∧
    (errorHandler Runtime.sample { status := JSValue.number 700, message := JSValue.string "X" }
      { method := "GET", path := "/", origin := none } Response.fresh).res.statusCode
      ≠ JSValue.number 500 := by
  decide

/-- C2 (amended): for every failure object passed to the error handler, the
response status is 500 when the declared status is absent or otherwise falsy;
when the declared status is an integer from 100 to 999 (the range Node accepts,
which holds every valid HTTP status code and the invalid ones from 600 to 999)
the response status is the declared status, except that a 2xx status may be
answered 304 on a `GET` or `HEAD` request that Express finds fresh; when the
declared status is a non-zero integer outside 100..999 the handler's `res.json`
call throws `ERR_HTTP_INVALID_STATUS_CODE` and the handler ends no response. -/
theorem C2_status (rt : Runtime) (err : Failure) (req : Request) (res : Response) :
    (err.status.truthy = false →
      (errorHandler rt err req res).outcome = Outcome.ended ∧
      (errorHandler rt err req res).res.statusCode = JSValue.number 500) ∧
    (∀ n : Int, err.status = JSValue.number n → 100 ≤ n → n ≤ 999 → ¬ (200 ≤ n ∧ n < 300) →
      (errorHandler rt err req res).outcome = Outcome.ended ∧
      (errorHandler rt err req res).res.statusCode = JSValue.number n) ∧
    (∀ n : Int, err.status = JSValue.number n → 200 ≤ n → n < 300 →
      (errorHandler rt err req res).outcome = Outcome.ended ∧
      ((errorHandler rt err req res).res.statusCode = JSValue.number n ∨
       (errorHandler rt err req res).res.statusCode = JSValue.number 304) ∧
      (req.method ≠ "GET" → req.method ≠ "HEAD" →
        (errorHandler rt err req res).res.statusCode = JSValue.number n)) ∧
    (∀ n : Int, err.status = JSValue.number n → n ≠ 0 → n < 100 ∨ 999 < n →
      -2147483648 ≤ n → n ≤ 2147483647 →
      (errorHandler rt err req res).outcome
        = Outcome.threw (Thrown.invalidStatusCode (JSValue.number n)) ∧
      (errorHandler rt err req res).res.ended = res.ended) := by
  refine ⟨?_, ?_, ?_, ?_⟩
  · intro h
    have hs : err.status.or (JSValue.number 500) = JSValue.number 500 := by
      simp [JSValue.or, h]
    have := errorHandler_number rt err req res 500 hs (by decide) (by decide) (by decide)
    exact ⟨this.1, this.2.1⟩
  · intro n hn hlo hhi h2
    have hs : err.status.or (JSValue.number 500) = JSValue.number n := by
      have : n ≠ 0 := by omega
      simp [JSValue.or, hn, JSValue.truthy, this]
    have := errorHandler_number rt err req res n hs hlo hhi h2
    exact ⟨this.1, this.2.1⟩
  · intro n hn hlo hhi
    have hs : err.status.or (JSValue.number 500) = JSValue.number n := by
      have : n ≠ 0 := by omega
      simp [JSValue.or, hn, JSValue.truthy, this]
    have hst : (res.status (err.status.or (JSValue.number 500))).statusCode
        = JSValue.number n := by simp [Response.status, hs]
    have hj := json_number rt req (res.status (err.status.or (JSValue.number 500)))
      { success := false, message := err.message.or (JSValue.string "Internal Server Error") }
      n hst
    have keep := fun (r : Response) (c : Body) (hr : r.statusCode = JSValue.number n) =>
      stripAndEnd_number rt r c n hr (by omega) (by omega)
    have turn := fun (r : Response) (c : Body) (hr : r.statusCode = JSValue.number 304) =>
      stripAndEnd_number rt r c 304 hr (by decide) (by decide)
    refine ⟨?_, ?_, ?_⟩
    · unfold errorHandler
      rcases hj.2 with h | ⟨_, _, h⟩
      · rw [h]; exact (keep _ _ (by exact hst)).1
      · rw [h]; exact (turn _ _ rfl).1
    · unfold errorHandler
      rcases hj.2 with h | ⟨_, _, h⟩
      · rw [h]; exact Or.inl (keep _ _ (by exact hst)).2.1
      · rw [h]; exact Or.inr (turn _ _ rfl).2.1
    · intro hg hh
      unfold errorHandler
      rw [hj.1 (Or.inr ⟨hg, hh⟩)]
      exact (keep _ _ (by exact hst)).2.1
  · intro n hn hn0 hout hlo hhi
    have hs : err.status.or (JSValue.number 500) = JSValue.number n := by
      simp [JSValue.or, hn, JSValue.truthy, hn0]
    have hst : (res.status (err.status.or (JSValue.number 500))).statusCode
        = JSValue.number n := by simp [Response.status, hs]
    have h2 : ¬ (200 ≤ n ∧ n < 300) := by omega
    unfold errorHandler
    rw [(json_number rt req _ _ n hst).1 (Or.inl h2)]
    have := stripAndEnd_number_throws rt
      { res.status (err.status.or (JSValue.number 500)) with
        headers := contentHeaders rt (res.status (err.status.or (JSValue.number 500))).headers
          { success := false,
            message := err.message.or (JSValue.string "Internal Server Error") } }
      (Body.json { success := false,
                   message := err.message.or (JSValue.string "Internal Server Error") })
      n hst hout hlo hhi
    exact ⟨this.1, this.2⟩

/-- Witness for C2 (amended): a declared status 404 is kept. -/
theorem C2_status_witness :
    validHttpStatus 404 = true ∧
    (errorHandler Runtime.sample { status := JSValue.number 404, message := JSValue.string "X" }
      { method := "GET", path := "/", origin := none } Response.fresh).res.statusCode
      = JSValue.number 404 :=
  ⟨by decide,
   ((C2_status Runtime.sample { status := JSValue.number 404, message := JSValue.string "X" }
      { method := "GET", path := "/", origin := none } Response.fresh).2.1 404 rfl
      (by decide) (by decide) (by decide)).2⟩

/-- C3, as stated, fails: a failure without a status may still carry a message,
and that message is what the body holds.  For `new Error("boom")` the status is
500 but the message is `boom`. -/
theorem C3_no_status_counterexample :
    (errorHandler Runtime.sample
      { status := JSValue.undefined, message := JSValue.string "boom" }
      { method := "GET", path := "/", origin := none } Response.fresh).res.statusCode
      = JSValue.number 500 ∧
    (errorHandler Runtime.sample
      { status := JSValue.undefined, message := JSValue.string "boom" }
      { method := "GET", path := "/", origin := none } Response.fresh).res.body
      = Body.json { success := false, message := JSValue.string "boom" } ∧
    (errorHandler Runtime.sample
      { status := JSValue.undefined, message := JSValue.string "boom" }
      { method := "GET", path := "/", origin := none } Response.fresh).res.body
      ≠ Body.json { success := false, message := JSValue.string "Internal Server Error" } := by
  decide

/-- C3 (amended): for every failure object that has no declared status, the error
handler responds with status exactly 500; the body's message is exactly
"Internal Server Error" when the failure carries no message either (absent or
otherwise falsy), and is the failure's own message when it carries one. -/
theorem C3_no_status (rt : Runtime) (err : Failure) (req : Request) (res : Response)
    (hs : err.status = JSValue.undefined) :
    (errorHandler rt err req res).res.statusCode = JSValue.number 500 ∧
    (err.message.truthy = false → (errorHandler rt err req res).res.body
      = Body.json { success := false, message := JSValue.string "Internal Server Error" }) ∧
    (err.message.truthy = true → (errorHandler rt err req res).res.body
      = Body.json { success := false, message := err.message }) := by
  have h500 : err.status.or (JSValue.number 500) = JSValue.number 500 := by
    rw [hs]; decide
  have h := errorHandler_number rt err req res 500 h500 (by decide) (by decide) (by decide)
  refine ⟨h.2.1, ?_, ?_⟩
  · intro hm
    rw [h.2.2.2, if_neg (by decide)]
    simp [JSValue.or, hm]
  · intro hm
    rw [h.2.2.2, if_neg (by decide)]
    simp [JSValue.or, hm]

/-- Witness for C3 (amended): a failure with neither status nor message. -/
theorem C3_no_status_witness :
    (errorHandler Runtime.sample
      { status := JSValue.undefined, message := JSValue.undefined }
      { method := "GET", path := "/", origin := none } Response.fresh).res.statusCode
      = JSValue.number 500 ∧
    (errorHandler Runtime.sample
      { status := JSValue.undefined, message := JSValue.undefined }
      { method := "GET", path := "/", origin := none } Response.fresh).res.body
      = Body.json { success := false, message := JSValue.string "Internal Server Error" } :=
  have h := C3_no_status Runtime.sample
    { status := JSValue.undefined, message := JSValue.undefined }
    { method := "GET", path := "/", origin := none } Response.fresh rfl
  ⟨h.1, h.2.1 rfl⟩

/-- C5, as stated, fails for the empty message: a failure with status 404 and
message `""` is answered with the message "Internal Server Error". -/
theorem C5_roundtrip_counterexample :
    (errorHandler Runtime.sample { status := JSValue.number 404, message := JSValue.string "" }
      { method := "GET", path := "/", origin := none } Response.fresh).res.body
      = Body.json { success := false, message := JSValue.string "Internal Server Error" } ∧
    (errorHandler Runtime.sample { status := JSValue.number 404, message := JSValue.string "" }
      { method := "GET", path := "/", origin := none } Response.fresh).res.body
      ≠ Body.json { success := false, message := JSValue.string "" } := by
  decide

/-- C5 (amended): for every non-empty message string `X`, a failure carrying
status 404 and message `X` yields HTTP status 404 and the JSON body
`{success: false, message: X}`, whatever the response looked like before. -/
theorem C5_roundtrip (rt : Runtime) (X : String) (req : Request) (res : Response)
    (hX : X ≠ "") :
    (errorHandler rt { status := JSValue.number 404, message := JSValue.string X }
      req res).res.statusCode = JSValue.number 404 ∧
    (errorHandler rt { status := JSValue.number 404, message := JSValue.string X }
      req res).res.body = Body.json { success := false, message := JSValue.string X } ∧
    (errorHandler rt { status := JSValue.number 404, message := JSValue.string X }
      req res).res.ended = true := by
  have h := errorHandler_number rt
    { status := JSValue.number 404, message := JSValue.string X } req res 404
    (by simp [JSValue.or, JSValue.truthy]) (by decide) (by decide) (by decide)
  refine ⟨h.2.1, ?_, h.2.2.1⟩
  rw [h.2.2.2, if_neg (by decide)]
  simp [JSValue.or, JSValue.truthy, strTruthy, hX]

/-- Witness for C5 (amended): the message `X`. -/
theorem C5_roundtrip_witness :
    "X" ≠ "" ∧
    (errorHandler Runtime.sample { status := JSValue.number 404, message := JSValue.string "X" }
      { method := "GET", path := "/", origin := none } Response.fresh).res.statusCode
      = JSValue.number 404 ∧
    (errorHandler Runtime.sample { status := JSValue.number 404, message := JSValue.string "X" }
      { method := "GET", path := "/", origin := none } Response.fresh).res.body
      = Body.json { success := false, message := JSValue.string "X" } :=
  ⟨by decide,
   (C5_roundtrip Runtime.sample "X" { method := "GET", path := "/", origin := none }
      Response.fresh (by decide)).1,
   (C5_roundtrip Runtime.sample "X" { method := "GET", path := "/", origin := none }
      Response.fresh (by decide)).2.1⟩

/-! ## CORS headers on error responses -/

/-- C10, as stated, fails in its second half: the error handler does not leave
every previously set header unchanged.  A `Content-Type: text/plain` set before
the failure is rewritten to carry a charset by `res.json`, and for a failure with
status 204 it is removed altogether. -/
theorem C10_error_headers_counterexample :
    getHeader (errorHandler Runtime.sample
      { status := JSValue.number 404, message := JSValue.string "X" }
      { method := "GET", path := "/", origin := none }
      { Response.fresh with headers := [("Content-Type", "text/plain")] }).res.headers
      "Content-Type" = some "text/plain; charset=utf-8" ∧
    getHeader (errorHandler Runtime.sample
      { status := JSValue.number 204, message := JSValue.string "X" }
      { method := "GET", path := "/", origin := none }
      { Response.fresh with headers := [("Content-Type", "text/plain")] }).res.headers
      "Content-Type" = none ∧
    getHeader ({ Response.fresh with headers := [("Content-Type", "text/plain")] } : Response).headers
      "Content-Type" = some "text/plain" := by
  decide

/-- C10 (amended): for every request that the CORS middleware passed on with
`next()` (such a request is never an `OPTIONS` request) and on which a later
stage raises a failure, the error handler leaves the four CORS headers as it
finds them: if the stages in between have not changed them, the response after
the error handler carries exactly the four values the CORS middleware set (the
three fixed ones in particular).  The error handler does change the status, the
body and content headers such as `Content-Type`. -/
theorem C10_error_keeps_cors_headers (rt : Runtime) (env : Env) (req : Request)
    (err : Failure) (res res2 : Response)
    (hnext : (corsMiddleware env req res).outcome = Outcome.next)
    (hkeep : ∀ name ∈ corsHeaderNames,
      getHeader res2.headers name = getHeader (corsMiddleware env req res).res.headers name) :
    req.method ≠ "OPTIONS" ∧
    (∀ name ∈ corsHeaderNames,
      getHeader (errorHandler rt err req res2).res.headers name = getHeader res2.headers name) ∧
    (∀ name ∈ corsHeaderNames,
      getHeader (errorHandler rt err req res2).res.headers name
        = getHeader (corsMiddleware env req res).res.headers name) ∧
    getHeader (errorHandler rt err req res2).res.headers "Access-Control-Allow-Methods"
      = some "GET, POST, PUT, DELETE, OPTIONS" ∧
    getHeader (errorHandler rt err req res2).res.headers "Access-Control-Allow-Headers"
      = some "Content-Type, Authorization" ∧
    getHeader (errorHandler rt err req res2).res.headers "Access-Control-Allow-Credentials"
      = some "true" := by
  have hframe : ∀ name ∈ corsHeaderNames,
      getHeader (errorHandler rt err req res2).res.headers name = getHeader res2.headers name := by
    intro name hname
    have hne : name ≠ "Content-Type" ∧ name ≠ "Content-Length" ∧ name ≠ "ETag" ∧
        name ≠ "Transfer-Encoding" := by
      revert name
      decide
    exact errorHandler_getHeader rt err req res2 name hne.1 hne.2.1 hne.2.2.1 hne.2.2.2
  have hall : ∀ name ∈ corsHeaderNames,
      getHeader (errorHandler rt err req res2).res.headers name
        = getHeader (corsMiddleware env req res).res.headers name := by
    intro name hname
    rw [hframe name hname, hkeep name hname]
  -- the CORS middleware went through, so its response carries the fixed headers
  have hfixed : req.method ≠ "OPTIONS" ∧
      ∃ res1 : Response, (corsMiddleware env req res).res.headers = fixedHeaders res1.headers := by
    cases h : applyOrigin (allowed env) req.origin res with
    | error e =>
      rw [corsMiddleware_of_error env req res e h] at hnext
      cases hnext
    | ok res1 =>
      refine ⟨?_, res1, corsMiddleware_headers_of_ok env req res res1 h⟩
      intro hm
      rw [corsMiddleware_of_ok env req res res1 h, if_pos hm] at hnext
      cases hnext
  obtain ⟨hm, res1, h1⟩ := hfixed
  have hfix := getHeader_fixedHeaders res1.headers
  refine ⟨hm, hframe, hall, ?_, ?_, ?_⟩
  · rw [hall _ (by decide), h1]; exact hfix.1
  · rw [hall _ (by decide), h1]; exact hfix.2.1
  · rw [hall _ (by decide), h1]; exact hfix.2.2

/-- Witness for C10 (amended): a `POST` from the configured origin that fails with
404 while the response is as the CORS middleware left it. -/
theorem C10_error_keeps_cors_headers_witness :
    (corsMiddleware { FRONTEND_URL := some "https://a.com", DASHBOARD_URL := none }
      { method := "POST", path := "/api/v1/message/send", origin := some "https://a.com" }
      Response.fresh).outcome = Outcome.next ∧
    getHeader (errorHandler Runtime.sample
      { status := JSValue.number 404, message := JSValue.string "X" }
      { method := "POST", path := "/api/v1/message/send", origin := some "https://a.com" }
      (corsMiddleware { FRONTEND_URL := some "https://a.com", DASHBOARD_URL := none }
        { method := "POST", path := "/api/v1/message/send", origin := some "https://a.com" }
        Response.fresh).res).res.headers "Access-Control-Allow-Origin"
    = getHeader (corsMiddleware { FRONTEND_URL := some "https://a.com", DASHBOARD_URL := none }
      { method := "POST", path := "/api/v1/message/send", origin := some "https://a.com" }
      Response.fresh).res.headers "Access-Control-Allow-Origin" :=
  ⟨by decide,
   (C10_error_keeps_cors_headers Runtime.sample
      { FRONTEND_URL := some "https://a.com", DASHBOARD_URL := none }
      { method := "POST", path := "/api/v1/message/send", origin := some "https://a.com" }
      { status := JSValue.number 404, message := JSValue.string "X" } Response.fresh
      (corsMiddleware { FRONTEND_URL := some "https://a.com", DASHBOARD_URL := none }
        { method := "POST", path := "/api/v1/message/send", origin := some "https://a.com" }
        Response.fresh).res
      (by decide) (fun _ _ => rfl)).2.2.1 "Access-Control-Allow-Origin" (by decide)⟩

end HospitalBackend
